import Mathlib

/-!
Verification of the per-frame decision logic of `src/FaceFrame.jsx`
(FaceFrameGuide component).

The component processes one video frame at a time.  For each frame it
receives zero or one face observation (an ordered list of 2-D keypoints
plus an optional in-view confidence), evaluates geometric containment
against an elliptical target region, maintains calibration and streak
state across frames, and emits edge-triggered callbacks
(onFaceDistanceChange, onKeypointsDetected, onCaptureAllowedChange,
onFaceStatusChange).

Real-valued quantities are modelled over ℚ.  The only irrational
operation in the source is Math.hypot inside getDistance, used to
compute the inter-eye distance; a face observation here carries that
already-computed distance as a rational field `eyeDistance` alongside
its keypoints, and everything downstream of it (relative distance,
calibration, classification) is translated exactly.
-/

namespace FaceFrame

/-- A 2-D keypoint `{x, y}` in frame pixel coordinates. -/
structure Point where
  x : ℚ
  y : ℚ
deriving DecidableEq, Repr

/-- The elliptical target region: center and radii. -/
structure Region where
  cx : ℚ
  cy : ℚ
  rx : ℚ
  ry : ℚ
deriving DecidableEq, Repr

/-- Region derived from the canvas each frame (source lines 148-151):
centerX = width/2, centerY = height/2.5, radiusX = width*0.3*margin,
radiusY = height*0.31*margin. -/
def mkRegion (width height margin : ℚ) : Region :=
  ⟨width / 2, height / (25/10), width * (3/10) * margin, height * (31/100) * margin⟩

/-- Containment test (source line 78): `(x−cx)²/rx² + (y−cy)²/ry² ≤ 1`. -/
def isInsideEllipse (x y cx cy rx ry : ℚ) : Bool :=
  decide ((x - cx) ^ 2 / rx ^ 2 + (y - cy) ^ 2 / ry ^ 2 ≤ 1)

/-- Minimum of a list of rationals (Math.min over a spread keypoint
array; the source never calls it on an empty list, where JS would give
+Infinity — the empty case here is an unexercised default). -/
def listMin : List ℚ → ℚ
  | [] => 0
  | x :: xs => xs.foldl min x

/-- Maximum of a list of rationals (Math.max over a spread array). -/
def listMax : List ℚ → ℚ
  | [] => 0
  | x :: xs => xs.foldl max x

/-- Axis-aligned bounding box of a keypoint list. -/
structure BBox where
  minX : ℚ
  maxX : ℚ
  minY : ℚ
  maxY : ℚ
deriving DecidableEq, Repr

/-- getBoundingBox (source lines 81-90). -/
def getBoundingBox (keypoints : List Point) : BBox :=
  ⟨listMin (keypoints.map Point.x), listMax (keypoints.map Point.x),
   listMin (keypoints.map Point.y), listMax (keypoints.map Point.y)⟩

/-- isBoundingBoxInsideEllipse (source lines 92-101): all four corners
of the bounding box pass the containment test. -/
def isBoundingBoxInsideEllipse (keypoints : List Point) (cx cy rx ry : ℚ) : Bool :=
  let b := getBoundingBox keypoints
  [⟨b.minX, b.minY⟩, ⟨b.maxX, b.minY⟩, ⟨b.minX, b.maxY⟩, (⟨b.maxX, b.maxY⟩ : Point)].all
    (fun p => isInsideEllipse p.x p.y cx cy rx ry)

/-- fractionInsideEllipse (source lines 103-110): a loop counting the
keypoints inside the ellipse, divided by the total count. -/
def fractionInsideEllipse (keypoints : List Point) (cx cy rx ry : ℚ) : ℚ :=
  (↑(keypoints.foldl
      (fun inside p => if isInsideEllipse p.x p.y cx cy rx ry then inside + 1 else inside)
      (0 : ℕ)) : ℚ) / (keypoints.length : ℚ)

/-- Distance classification emitted through onFaceDistanceChange. -/
inductive DistStatus where
  | ok
  | tooFar
  | tooClose
deriving DecidableEq, Repr

/-- One face observation for a frame: the detector's keypoints, the
optional faceInViewConfidence, and the inter-eye distance
`getDistance(keypoints[33], keypoints[263])` (source lines 163-165),
carried as a rational since Math.hypot is irrational in general. -/
structure FaceInput where
  keypoints : List Point
  faceInViewConfidence : Option ℚ
  eyeDistance : ℚ
deriving DecidableEq, Repr

/-- Session configuration (component props, source lines 13-19). -/
structure Config where
  minFramesIn : ℕ
  minFramesOut : ℕ
  boxInsideRequired : Bool
  percentInsideRequired : ℚ
  minEyeRatio : ℚ
  maxEyeRatio : ℚ
deriving DecidableEq, Repr

/-- The default prop values. -/
def defaultCfg : Config :=
  ⟨6, 3, true, 95/100, 8/100, 18/100⟩

/-- CALIBRATE_MIN_STREAK (source line 35). -/
def CALIBRATE_MIN_STREAK : ℕ := 8

/-- FAR_FACTOR (source line 36). -/
def FAR_FACTOR : ℚ := 85/100

/-- CLOSE_FACTOR (source line 37). -/
def CLOSE_FACTOR : ℚ := 12/10

/-- LOST_RESET_STREAK (source line 38). -/
def LOST_RESET_STREAK : ℕ := 12

/-- All cross-frame mutable refs of the component (source lines 26-39). -/
structure EngineState where
  lastGoodVisual : Bool
  lastDistanceStatus : Option DistStatus
  lastCaptureAllowed : Bool
  goodStreak : ℕ
  badStreak : ℕ
  baselineEyePx : Option ℚ
  calibratingStreak : ℕ
  lostStreak : ℕ
deriving DecidableEq, Repr

/-- The refs' initial values: false / null / false / 0 / 0 / null / 0 / 0. -/
def initState : EngineState :=
  ⟨false, none, false, 0, 0, none, 0, 0⟩

/-- Callback invocations performed during one frame, one list per
callback, each holding the argument values passed (in invocation
order; the source invokes each callback at most once per frame). -/
structure Calls where
  distCalls : List DistStatus
  kpCalls : List (Option (List Point))
  goodCalls : List Bool
  capCalls : List Bool
deriving DecidableEq, Repr

/-- geometryOk for a face frame: `boxOk && fracOk && confidenceOk`
(source lines 170-192, recomputed as isGoodNow on line 229). -/
def geometryOkOf (cfg : Config) (r : Region) (face : FaceInput) : Bool :=
  (if cfg.boxInsideRequired then
      isBoundingBoxInsideEllipse face.keypoints r.cx r.cy r.rx r.ry
    else true)
  && decide (cfg.percentInsideRequired ≤ fractionInsideEllipse face.keypoints r.cx r.cy r.rx r.ry)
  && (match face.faceInViewConfidence with
      | none => true
      | some c => decide ((95/100 : ℚ) < c))

/-- relativeEyeDistance (source lines 167-168):
`eyeDistance / max(2 * min(radiusX, radiusY), 1)`. -/
def relativeEyeDistance (r : Region) (face : FaceInput) : ℚ :=
  face.eyeDistance / max (2 * min r.rx r.ry) 1

/-- Calibration update on a face frame (source lines 192-203): on a
geometry-OK frame increment calibratingStreak, zero lostStreak, and
set the baseline one-shot once the streak reaches
CALIBRATE_MIN_STREAK; otherwise zero calibratingStreak. -/
def calibAfter (cfg : Config) (r : Region) (face : FaceInput) (s : EngineState) : EngineState :=
  if geometryOkOf cfg r face then
    let cs := s.calibratingStreak + 1
    { s with
      calibratingStreak := cs
      lostStreak := 0
      baselineEyePx :=
        if s.baselineEyePx = none ∧ CALIBRATE_MIN_STREAK ≤ cs then
          some face.eyeDistance
        else s.baselineEyePx }
  else { s with calibratingStreak := 0 }

/-- Distance classification on a face frame (source lines 205-215),
against the given (already-updated) baseline. -/
def classify (cfg : Config) (r : Region) (face : FaceInput) : Option ℚ → DistStatus
  | some baseline =>
      if face.eyeDistance < baseline * FAR_FACTOR then .tooFar
      else if baseline * CLOSE_FACTOR < face.eyeDistance then .tooClose
      else .ok
  | none =>
      if relativeEyeDistance r face < cfg.minEyeRatio then .tooFar
      else if cfg.maxEyeRatio < relativeEyeDistance r face then .tooClose
      else .ok

/-- The distance status computed on a face frame from pre-frame state
`s` (the classification runs after the calibration update). -/
def faceDistStatus (cfg : Config) (r : Region) (s : EngineState) (face : FaceInput) : DistStatus :=
  classify cfg r face (calibAfter cfg r face s).baselineEyePx

/-- Shared tail of both branches (source lines 265-272): emit
captureAllowed and isGoodNow changes, assemble the new state. -/
def finishFrame (s : EngineState) (isGoodNow captureAllowed : Bool)
    (lastDist : Option DistStatus) (good bad : ℕ) (baseline : Option ℚ)
    (cs lost : ℕ) (distCalls : List DistStatus) (kpCalls : List (Option (List Point))) :
    EngineState × Calls :=
  let capCalls := if captureAllowed ≠ s.lastCaptureAllowed then [captureAllowed] else []
  let lastCap := if captureAllowed ≠ s.lastCaptureAllowed then captureAllowed else s.lastCaptureAllowed
  let goodCalls := if isGoodNow ≠ s.lastGoodVisual then [isGoodNow] else []
  let lastGood := if isGoodNow ≠ s.lastGoodVisual then isGoodNow else s.lastGoodVisual
  (⟨lastGood, lastDist, lastCap, good, bad, baseline, cs, lost⟩,
   ⟨distCalls, kpCalls, goodCalls, capCalls⟩)

/-- One iteration of the detect loop (source lines 153-272) for a frame
whose prediction list is `input` (some face, or none), from state `s`:
returns the updated refs and the callback invocations of the frame. -/
def detectStep (cfg : Config) (r : Region) (input : Option FaceInput) (s : EngineState) :
    EngineState × Calls :=
  match input with
  | some face =>
      let s1 := calibAfter cfg r face s
      let distanceStatus := classify cfg r face s1.baselineEyePx
      let distCalls := if some distanceStatus ≠ s.lastDistanceStatus then [distanceStatus] else []
      let lastDist :=
        if some distanceStatus ≠ s.lastDistanceStatus then some distanceStatus
        else s.lastDistanceStatus
      if distanceStatus ≠ .ok then
        finishFrame s false false lastDist 0 (s.badStreak + 1)
          s1.baselineEyePx s1.calibratingStreak s1.lostStreak distCalls [some face.keypoints]
      else
        let isGoodNow := geometryOkOf cfg r face
        let good := if isGoodNow then s.goodStreak + 1 else 0
        let bad := if isGoodNow then 0 else s.badStreak + 1
        let captureAllowed :=
          if cfg.minFramesIn ≤ good then true
          else if cfg.minFramesOut ≤ bad then false
          else s.lastCaptureAllowed
        finishFrame s isGoodNow captureAllowed lastDist good bad
          s1.baselineEyePx s1.calibratingStreak s1.lostStreak distCalls [some face.keypoints]
  | none =>
      let lost := s.lostStreak + 1
      let baseline := if LOST_RESET_STREAK ≤ lost then none else s.baselineEyePx
      let cs := if LOST_RESET_STREAK ≤ lost then 0 else s.calibratingStreak
      let distCalls := if s.lastDistanceStatus ≠ some .tooFar then [DistStatus.tooFar] else []
      let lastDist :=
        if s.lastDistanceStatus ≠ some .tooFar then some DistStatus.tooFar
        else s.lastDistanceStatus
      finishFrame s false false lastDist 0 (s.badStreak + 1) baseline cs lost distCalls [none]

/-- Runs the detect loop over a list of frames, threading the state. -/
def runFrames (cfg : Config) (r : Region) (inputs : List (Option FaceInput))
    (s : EngineState) : EngineState :=
  inputs.foldl (fun st i => (detectStep cfg r i st).1) s

/-- A sample region: a 10×10 canvas with the default margin, giving
center (5, 4) and radii (3, 31/10). -/
def r0 : Region := mkRegion 10 10 1

/-- A sample face measured at the region center with eye distance 3/5:
geometry-OK for the default configuration and, while the baseline is
unset, at an ok relative distance ((3/5)/6 = 1/10 ∈ [8/100, 18/100]). -/
def goodFace : FaceInput := ⟨[⟨5, 4⟩], none, 3/5⟩

end FaceFrame

attribute [local semireducible] Rat.mul Rat.add Rat.sub Rat.inv

namespace FaceFrame

/-- An update-on-change write always ends at the new value. -/
lemma update_last {α : Type} [DecidableEq α] (a b : α) : (if a ≠ b then a else b) = a := by
  by_cases h : a = b <;> simp [h]

/-- State after a face frame whose distance status is not ok
(source lines 222-227): face-good forced false, goodStreak zeroed,
badStreak incremented, capture disallowed. -/
lemma detectStep_face_notOk (cfg : Config) (r : Region) (face : FaceInput) (s : EngineState)
    (h : faceDistStatus cfg r s face ≠ .ok) :
    (detectStep cfg r (some face) s).1 =
      ⟨false, some (faceDistStatus cfg r s face), false, 0, s.badStreak + 1,
       (calibAfter cfg r face s).baselineEyePx, (calibAfter cfg r face s).calibratingStreak,
       (calibAfter cfg r face s).lostStreak⟩ := by
  have hcl : classify cfg r face (calibAfter cfg r face s).baselineEyePx
      = faceDistStatus cfg r s face := rfl
  simp only [detectStep, hcl, if_pos h, finishFrame]
  by_cases hd : some (faceDistStatus cfg r s face) = s.lastDistanceStatus <;>
    by_cases hc : (false : Bool) = s.lastCaptureAllowed <;>
    by_cases hg : (false : Bool) = s.lastGoodVisual <;>
    simp_all

/-- State after a face frame whose distance status is ok
(source lines 228-247): streaks updated by geometryOk, capture decided
by the hysteresis ternary. -/
lemma detectStep_face_ok (cfg : Config) (r : Region) (face : FaceInput) (s : EngineState)
    (h : faceDistStatus cfg r s face = .ok) :
    (detectStep cfg r (some face) s).1 =
      ⟨geometryOkOf cfg r face, some .ok,
       (if cfg.minFramesIn ≤ (if geometryOkOf cfg r face then s.goodStreak + 1 else 0) then true
        else if cfg.minFramesOut ≤ (if geometryOkOf cfg r face then 0 else s.badStreak + 1) then
          false
        else s.lastCaptureAllowed),
       (if geometryOkOf cfg r face then s.goodStreak + 1 else 0),
       (if geometryOkOf cfg r face then 0 else s.badStreak + 1),
       (calibAfter cfg r face s).baselineEyePx, (calibAfter cfg r face s).calibratingStreak,
       (calibAfter cfg r face s).lostStreak⟩ := by
  have hcl : classify cfg r face (calibAfter cfg r face s).baselineEyePx
      = faceDistStatus cfg r s face := rfl
  simp only [detectStep, hcl, h, ne_eq, not_true_eq_false, if_false, ite_false, finishFrame,
    not_not]
  by_cases hd : some DistStatus.ok = s.lastDistanceStatus <;>
    by_cases hg : geometryOkOf cfg r face = s.lastGoodVisual <;>
    by_cases hcap :
      (if cfg.minFramesIn ≤ (if geometryOkOf cfg r face then s.goodStreak + 1 else 0) then true
       else if cfg.minFramesOut ≤ (if geometryOkOf cfg r face then 0 else s.badStreak + 1) then
         false
       else s.lastCaptureAllowed) = s.lastCaptureAllowed <;>
    simp_all

/-- State after a no-face frame (source lines 248-263): lostStreak
incremented, calibration cleared at LOST_RESET_STREAK, distance forced
tooFar, capture disallowed. -/
lemma detectStep_none (cfg : Config) (r : Region) (s : EngineState) :
    (detectStep cfg r none s).1 =
      ⟨false, some .tooFar, false, 0, s.badStreak + 1,
       (if LOST_RESET_STREAK ≤ s.lostStreak + 1 then none else s.baselineEyePx),
       (if LOST_RESET_STREAK ≤ s.lostStreak + 1 then 0 else s.calibratingStreak),
       s.lostStreak + 1⟩ := by
  simp only [detectStep, finishFrame]
  by_cases hd : s.lastDistanceStatus = some DistStatus.tooFar <;>
    by_cases hc : (false : Bool) = s.lastCaptureAllowed <;>
    by_cases hg : (false : Bool) = s.lastGoodVisual <;>
    simp_all

/-- Calibration update on a geometry-OK frame, spelled out. -/
lemma calibAfter_good (cfg : Config) (r : Region) (face : FaceInput) (s : EngineState)
    (h : geometryOkOf cfg r face = true) :
    calibAfter cfg r face s =
      { s with
        calibratingStreak := s.calibratingStreak + 1
        lostStreak := 0
        baselineEyePx :=
          if s.baselineEyePx = none ∧ CALIBRATE_MIN_STREAK ≤ s.calibratingStreak + 1 then
            some face.eyeDistance
          else s.baselineEyePx } := by
  simp [calibAfter, h]

/-- Calibration update on a face frame that is not geometry-OK. -/
lemma calibAfter_bad (cfg : Config) (r : Region) (face : FaceInput) (s : EngineState)
    (h : geometryOkOf cfg r face = false) :
    calibAfter cfg r face s = { s with calibratingStreak := 0 } := by
  simp [calibAfter, h]

/-- A set baseline is never touched by the calibration update. -/
lemma calibAfter_baseline_set (cfg : Config) (r : Region) (face : FaceInput) (s : EngineState)
    (b : ℚ) (h : s.baselineEyePx = some b) :
    (calibAfter cfg r face s).baselineEyePx = some b := by
  by_cases hg : geometryOkOf cfg r face = true
  · rw [calibAfter_good cfg r face s hg]
    simp [h]
  · rw [calibAfter_bad cfg r face s (by simpa using hg)]
    exact h

/-- C2.  On every frame — from any state, under any configuration —
the step either increments goodStreak and zeroes badStreak, or
increments badStreak and zeroes goodStreak; in particular at most one
of the two streaks is nonzero afterwards (so this also holds along any
run from the initial state). -/
theorem streak_exclusivity (cfg : Config) (r : Region) (input : Option FaceInput)
    (s : EngineState) :
    ((detectStep cfg r input s).1.goodStreak = 0 ∨ (detectStep cfg r input s).1.badStreak = 0) ∧
    (((detectStep cfg r input s).1.goodStreak = s.goodStreak + 1 ∧
        (detectStep cfg r input s).1.badStreak = 0) ∨
      ((detectStep cfg r input s).1.badStreak = s.badStreak + 1 ∧
        (detectStep cfg r input s).1.goodStreak = 0)) := by
  match input with
  | none =>
      rw [detectStep_none]
      simp
  | some face =>
      by_cases h : faceDistStatus cfg r s face = .ok
      · rw [detectStep_face_ok cfg r face s h]
        by_cases hg : geometryOkOf cfg r face = true <;> simp [hg]
      · rw [detectStep_face_notOk cfg r face s h]
        simp

/-- C3.  A set baseline survives every face frame (geometry-OK or
not), survives a no-face frame whose incremented lostStreak is still
below LOST_RESET_STREAK, and is cleared by a no-face frame whose
incremented lostStreak reaches LOST_RESET_STREAK. -/
theorem baseline_one_shot (cfg : Config) (r : Region) (s : EngineState) (b : ℚ)
    (face : FaceInput) (h : s.baselineEyePx = some b) :
    (detectStep cfg r (some face) s).1.baselineEyePx = some b ∧
    (s.lostStreak + 1 < LOST_RESET_STREAK → (detectStep cfg r none s).1.baselineEyePx = some b) ∧
    (LOST_RESET_STREAK ≤ s.lostStreak + 1 → (detectStep cfg r none s).1.baselineEyePx = none) := by
  refine ⟨?_, ?_, ?_⟩
  · by_cases hok : faceDistStatus cfg r s face = .ok
    · rw [detectStep_face_ok cfg r face s hok]
      exact calibAfter_baseline_set cfg r face s b h
    · rw [detectStep_face_notOk cfg r face s hok]
      exact calibAfter_baseline_set cfg r face s b h
  · intro hlt
    rw [detectStep_none]
    simp only [if_neg (Nat.not_le.mpr hlt)]
    exact h
  · intro hge
    rw [detectStep_none]
    simp only [if_pos hge]

/-- Witness for C3: a baseline of 100 survives a geometry-OK face
frame and a first no-face frame, from a fresh state. -/
theorem baseline_one_shot_witness :
    (detectStep defaultCfg r0 (some goodFace)
        ⟨false, none, false, 0, 0, some 100, 0, 0⟩).1.baselineEyePx = some 100 ∧
    (detectStep defaultCfg r0 none
        ⟨false, none, false, 0, 0, some 100, 0, 0⟩).1.baselineEyePx = some 100 :=
  ⟨(baseline_one_shot defaultCfg r0 ⟨false, none, false, 0, 0, some 100, 0, 0⟩ 100 goodFace
      rfl).1,
   (baseline_one_shot defaultCfg r0 ⟨false, none, false, 0, 0, some 100, 0, 0⟩ 100 goodFace
      rfl).2.1 (by decide)⟩

/-- C5.  lostStreak is incremented exactly on no-face frames, reset to
zero exactly on geometry-OK face frames, and left unchanged by a face
frame that is not geometry-OK; a no-face frame whose incremented
lostStreak reaches LOST_RESET_STREAK clears the baseline and zeroes
calibratingStreak. -/
theorem lostStreak_update (cfg : Config) (r : Region) (s : EngineState) (face : FaceInput) :
    (detectStep cfg r none s).1.lostStreak = s.lostStreak + 1 ∧
    (geometryOkOf cfg r face = true → (detectStep cfg r (some face) s).1.lostStreak = 0) ∧
    (geometryOkOf cfg r face = false →
      (detectStep cfg r (some face) s).1.lostStreak = s.lostStreak) ∧
    (LOST_RESET_STREAK ≤ s.lostStreak + 1 →
      (detectStep cfg r none s).1.baselineEyePx = none ∧
      (detectStep cfg r none s).1.calibratingStreak = 0) := by
  have hface :
      (detectStep cfg r (some face) s).1.lostStreak = (calibAfter cfg r face s).lostStreak := by
    by_cases hok : faceDistStatus cfg r s face = .ok
    · rw [detectStep_face_ok cfg r face s hok]
    · rw [detectStep_face_notOk cfg r face s hok]
  refine ⟨?_, ?_, ?_, ?_⟩
  · rw [detectStep_none]
  · intro hg
    rw [hface, calibAfter_good cfg r face s hg]
  · intro hg
    rw [hface, calibAfter_bad cfg r face s hg]
  · intro hge
    rw [detectStep_none]
    simp [if_pos hge]

/-- Witness for C5: a geometry-OK frame zeroes lostStreak, and a
twelfth consecutive no-face frame clears a set baseline. -/
theorem lostStreak_update_witness :
    (detectStep defaultCfg r0 (some goodFace) initState).1.lostStreak = 0 ∧
    ((detectStep defaultCfg r0 none
        ⟨false, none, false, 0, 0, some 100, 0, 11⟩).1.baselineEyePx = none ∧
      (detectStep defaultCfg r0 none
        ⟨false, none, false, 0, 0, some 100, 0, 11⟩).1.calibratingStreak = 0) :=
  ⟨(lostStreak_update defaultCfg r0 initState goodFace).2.1 (by decide),
   (lostStreak_update defaultCfg r0 ⟨false, none, false, 0, 0, some 100, 0, 11⟩
      goodFace).2.2.2 (by decide)⟩

/-- C4.  On a face frame whose computed distance status is ok, the
capture signal becomes true when the updated goodStreak reaches
minFramesIn, becomes false when (goodStreak has not and) the updated
badStreak reaches minFramesOut, and otherwise holds its previous
value. -/
theorem captureAllowed_rule_on_ok_frame (cfg : Config) (r : Region) (s : EngineState)
    (face : FaceInput) (h : faceDistStatus cfg r s face = .ok) :
    (cfg.minFramesIn ≤ (detectStep cfg r (some face) s).1.goodStreak →
      (detectStep cfg r (some face) s).1.lastCaptureAllowed = true) ∧
    ((detectStep cfg r (some face) s).1.goodStreak < cfg.minFramesIn →
      cfg.minFramesOut ≤ (detectStep cfg r (some face) s).1.badStreak →
        (detectStep cfg r (some face) s).1.lastCaptureAllowed = false) ∧
    ((detectStep cfg r (some face) s).1.goodStreak < cfg.minFramesIn →
      (detectStep cfg r (some face) s).1.badStreak < cfg.minFramesOut →
        (detectStep cfg r (some face) s).1.lastCaptureAllowed = s.lastCaptureAllowed) := by
  rw [detectStep_face_ok cfg r face s h]
  refine ⟨?_, ?_, ?_⟩
  · intro h1
    simp only [if_pos h1]
  · intro h1 h2
    simp only [if_neg (Nat.not_le.mpr h1), if_pos h2]
  · intro h1 h2
    simp only [if_neg (Nat.not_le.mpr h1), if_neg (Nat.not_le.mpr h2)]

/-- Witness for C4 (Scenario 3): from goodStreak = 5 under the default
configuration (minFramesIn = 6), one geometry-OK distance-ok frame
gives goodStreak = 6 and flips the capture signal from false to
true. -/
theorem captureAllowed_rule_on_ok_frame_witness :
    faceDistStatus defaultCfg r0 ⟨false, none, false, 5, 0, none, 0, 0⟩ goodFace = .ok ∧
    (⟨false, none, false, 5, 0, none, 0, 0⟩ : EngineState).lastCaptureAllowed = false ∧
    (detectStep defaultCfg r0 (some goodFace)
        ⟨false, none, false, 5, 0, none, 0, 0⟩).1.goodStreak = 6 ∧
    (detectStep defaultCfg r0 (some goodFace)
        ⟨false, none, false, 5, 0, none, 0, 0⟩).1.lastCaptureAllowed = true :=
  ⟨by decide, rfl, by decide,
   (captureAllowed_rule_on_ok_frame defaultCfg r0 ⟨false, none, false, 5, 0, none, 0, 0⟩
      goodFace (by decide)).1 (by decide)⟩

/-- C6.  Distance classification on a face frame: against a set
(nonnegative) baseline, tooFar iff eyeDistance < baseline·FAR_FACTOR
and tooClose iff eyeDistance > baseline·CLOSE_FACTOR, else ok; with
the baseline unset (and minEyeRatio ≤ maxEyeRatio), tooFar iff
relativeEyeDistance < minEyeRatio and tooClose iff
relativeEyeDistance > maxEyeRatio, else ok; and a non-ok status forces
the capture signal false on that frame. -/
theorem distance_classification (cfg : Config) (r : Region) (s : EngineState)
    (face : FaceInput) :
    (∀ b : ℚ, (calibAfter cfg r face s).baselineEyePx = some b → 0 ≤ b →
      ((faceDistStatus cfg r s face = .tooFar ↔ face.eyeDistance < b * FAR_FACTOR) ∧
       (faceDistStatus cfg r s face = .tooClose ↔ b * CLOSE_FACTOR < face.eyeDistance) ∧
       (faceDistStatus cfg r s face = .ok ↔
         ¬ face.eyeDistance < b * FAR_FACTOR ∧ ¬ b * CLOSE_FACTOR < face.eyeDistance))) ∧
    ((calibAfter cfg r face s).baselineEyePx = none → cfg.minEyeRatio ≤ cfg.maxEyeRatio →
      ((faceDistStatus cfg r s face = .tooFar ↔
          relativeEyeDistance r face < cfg.minEyeRatio) ∧
       (faceDistStatus cfg r s face = .tooClose ↔
          cfg.maxEyeRatio < relativeEyeDistance r face) ∧
       (faceDistStatus cfg r s face = .ok ↔
         ¬ relativeEyeDistance r face < cfg.minEyeRatio ∧
         ¬ cfg.maxEyeRatio < relativeEyeDistance r face))) ∧
    (faceDistStatus cfg r s face ≠ .ok →
      (detectStep cfg r (some face) s).1.lastCaptureAllowed = false) := by
  refine ⟨?_, ?_, ?_⟩
  · intro b hb hb0
    have hmono : b * FAR_FACTOR ≤ b * CLOSE_FACTOR :=
      mul_le_mul_of_nonneg_left (by norm_num [FAR_FACTOR, CLOSE_FACTOR]) hb0
    simp only [faceDistStatus, hb, classify]
    split_ifs with h1 h2 <;> refine ⟨?_, ?_, ?_⟩ <;> simp_all <;> linarith
  · intro hb hr
    simp only [faceDistStatus, hb, classify]
    split_ifs with h1 h2 <;> refine ⟨?_, ?_, ?_⟩ <;> simp_all <;> linarith
  · intro hok
    rw [detectStep_face_notOk cfg r face s hok]

/-- Witness for C6 (Scenario 2): baseline 100 and eyeDistance 80
(< 85 = 100·FAR_FACTOR) classify as tooFar, and the capture signal is
false after that frame. -/
theorem distance_classification_witness :
    faceDistStatus defaultCfg r0 ⟨false, none, false, 0, 0, some 100, 0, 0⟩
        ⟨[⟨5, 4⟩], none, 80⟩ = .tooFar ∧
    (detectStep defaultCfg r0 (some ⟨[⟨5, 4⟩], none, 80⟩)
        ⟨false, none, false, 0, 0, some 100, 0, 0⟩).1.lastCaptureAllowed = false :=
  ⟨((distance_classification defaultCfg r0 ⟨false, none, false, 0, 0, some 100, 0, 0⟩
      ⟨[⟨5, 4⟩], none, 80⟩).1 100 (by decide) (by norm_num)).1.mpr (by decide),
   (distance_classification defaultCfg r0 ⟨false, none, false, 0, 0, some 100, 0, 0⟩
      ⟨[⟨5, 4⟩], none, 80⟩).2.2 (by decide)⟩

/-- Unfolds one frame of a run. -/
lemma runFrames_cons (cfg : Config) (r : Region) (i : Option FaceInput)
    (is : List (Option FaceInput)) (s : EngineState) :
    runFrames cfg r (i :: is) s = runFrames cfg r is (detectStep cfg r i s).1 := rfl

/-- Splits a run at a list append. -/
lemma runFrames_append (cfg : Config) (r : Region) (a b : List (Option FaceInput))
    (s : EngineState) :
    runFrames cfg r (a ++ b) s = runFrames cfg r b (runFrames cfg r a s) := by
  simp [runFrames, List.foldl_append]

/-- Both distance branches carry the calibration fields through. -/
lemma detectStep_face_calib (cfg : Config) (r : Region) (face : FaceInput) (s : EngineState) :
    (detectStep cfg r (some face) s).1.baselineEyePx = (calibAfter cfg r face s).baselineEyePx ∧
    (detectStep cfg r (some face) s).1.calibratingStreak =
      (calibAfter cfg r face s).calibratingStreak := by
  by_cases hok : faceDistStatus cfg r s face = .ok
  · rw [detectStep_face_ok cfg r face s hok]
    exact ⟨rfl, rfl⟩
  · rw [detectStep_face_notOk cfg r face s hok]
    exact ⟨rfl, rfl⟩

/-- A geometry-OK frame below the calibration threshold leaves the
baseline unset and increments calibratingStreak. -/
lemma calib_step_under (cfg : Config) (r : Region) (face : FaceInput) (s : EngineState)
    (h1 : geometryOkOf cfg r face = true) (h2 : s.baselineEyePx = none)
    (h3 : s.calibratingStreak + 1 < CALIBRATE_MIN_STREAK) :
    (detectStep cfg r (some face) s).1.baselineEyePx = none ∧
    (detectStep cfg r (some face) s).1.calibratingStreak = s.calibratingStreak + 1 := by
  obtain ⟨hb, hc⟩ := detectStep_face_calib cfg r face s
  rw [hb, hc, calibAfter_good cfg r face s h1]
  refine ⟨?_, rfl⟩
  simp only
  rw [if_neg]
  · exact h2
  · rintro ⟨-, hle⟩
    omega

/-- A geometry-OK frame that lifts calibratingStreak to the threshold
sets the baseline to that frame's eye distance. -/
lemma calib_step_fires (cfg : Config) (r : Region) (face : FaceInput) (s : EngineState)
    (h1 : geometryOkOf cfg r face = true) (h2 : s.baselineEyePx = none)
    (h3 : CALIBRATE_MIN_STREAK ≤ s.calibratingStreak + 1) :
    (detectStep cfg r (some face) s).1.baselineEyePx = some face.eyeDistance ∧
    (detectStep cfg r (some face) s).1.calibratingStreak = s.calibratingStreak + 1 := by
  obtain ⟨hb, hc⟩ := detectStep_face_calib cfg r face s
  rw [hb, hc, calibAfter_good cfg r face s h1]
  refine ⟨?_, rfl⟩
  simp only
  rw [if_pos ⟨h2, h3⟩]

/-- Over any run of geometry-OK frames that stays strictly below the
calibration threshold, the baseline stays unset and calibratingStreak
counts the frames. -/
lemma calib_run_under (cfg : Config) (r : Region) (fs : List FaceInput) :
    ∀ s : EngineState, s.baselineEyePx = none →
      (∀ f ∈ fs, geometryOkOf cfg r f = true) →
      s.calibratingStreak + fs.length < CALIBRATE_MIN_STREAK →
      (runFrames cfg r (fs.map some) s).baselineEyePx = none ∧
      (runFrames cfg r (fs.map some) s).calibratingStreak =
        s.calibratingStreak + fs.length := by
  induction fs with
  | nil =>
      intro s h0 _ _
      exact ⟨h0, by simp [runFrames]⟩
  | cons f fs ih =>
      intro s h0 hall hlt
      have hf : geometryOkOf cfg r f = true := hall f (by simp)
      obtain ⟨hb, hc⟩ := calib_step_under cfg r f s hf h0 (by simp at hlt; omega)
      rw [List.map_cons, runFrames_cons]
      obtain ⟨hb', hc'⟩ := ih (detectStep cfg r (some f) s).1 hb
        (fun g hg => hall g (by simp [hg])) (by rw [hc]; simp at hlt ⊢; omega)
      refine ⟨hb', ?_⟩
      rw [hc', hc]
      simp
      omega

/-- C7 (Scenario 1).  From an unset baseline and calibratingStreak 0,
eight consecutive geometry-OK face frames leave calibratingStreak = 8
and set the baseline, on the eighth frame, to that frame's eye
distance. -/
theorem calibration_eight_frames (cfg : Config) (r : Region) (s : EngineState)
    (fs : List FaceInput) (f8 : FaceInput)
    (h0b : s.baselineEyePx = none) (h0c : s.calibratingStreak = 0)
    (hlen : fs.length = 7)
    (hall : ∀ f ∈ fs, geometryOkOf cfg r f = true)
    (h8 : geometryOkOf cfg r f8 = true) :
    (runFrames cfg r ((fs ++ [f8]).map some) s).calibratingStreak = 8 ∧
    (runFrames cfg r ((fs ++ [f8]).map some) s).baselineEyePx = some f8.eyeDistance := by
  rw [List.map_append, runFrames_append]
  obtain ⟨hb7, hc7⟩ := calib_run_under cfg r fs s h0b hall (by rw [h0c, hlen]; decide)
  have hone : (List.map some [f8] : List (Option FaceInput)) = [some f8] := by simp
  rw [hone]
  rw [show runFrames cfg r [some f8] (runFrames cfg r (fs.map some) s)
        = (detectStep cfg r (some f8) (runFrames cfg r (fs.map some) s)).1 from rfl]
  obtain ⟨hb8, hc8⟩ := calib_step_fires cfg r f8 (runFrames cfg r (fs.map some) s) h8 hb7
    (by rw [hc7, h0c, hlen]; decide)
  exact ⟨by rw [hc8, hc7, h0c, hlen], hb8⟩

/-- Witness for C7: eight copies of the sample geometry-OK face from
the initial state calibrate the baseline to its eye distance 3/5. -/
theorem calibration_eight_frames_witness :
    (runFrames defaultCfg r0 ((List.replicate 7 goodFace ++ [goodFace]).map some)
        initState).calibratingStreak = 8 ∧
    (runFrames defaultCfg r0 ((List.replicate 7 goodFace ++ [goodFace]).map some)
        initState).baselineEyePx = some goodFace.eyeDistance :=
  calibration_eight_frames defaultCfg r0 initState (List.replicate 7 goodFace) goodFace
    rfl rfl (by decide)
    (fun f hf => by rw [List.eq_of_mem_replicate hf]; decide)
    (by decide)

/-- The geometry gate exactly as the specification words it:
boundingBoxInside (vacuously true when boxInsideRequired is off,
otherwise all four corners of the keypoints' axis-aligned bounding box
satisfy the ellipse inequality), AND the count of keypoints inside the
ellipse divided by the keypoint count at least percentInsideRequired,
AND confidence absent or above 95/100. -/
def geometryOkSpec (cfg : Config) (r : Region) (face : FaceInput) : Bool :=
  let xs := face.keypoints.map Point.x
  let ys := face.keypoints.map Point.y
  let corners : List Point :=
    [⟨listMin xs, listMin ys⟩, ⟨listMax xs, listMin ys⟩,
     ⟨listMin xs, listMax ys⟩, ⟨listMax xs, listMax ys⟩]
  let inEllipse : Point → Bool := fun p =>
    decide ((p.x - r.cx) ^ 2 / r.rx ^ 2 + (p.y - r.cy) ^ 2 / r.ry ^ 2 ≤ 1)
  let boundingBoxInside := !cfg.boxInsideRequired || corners.all inEllipse
  let fractionInside :=
    ((face.keypoints.countP inEllipse : ℕ) : ℚ) / (face.keypoints.length : ℚ)
  let confidenceOk :=
    match face.faceInViewConfidence with
    | none => true
    | some c => decide ((95/100 : ℚ) < c)
  boundingBoxInside && decide (cfg.percentInsideRequired ≤ fractionInside) && confidenceOk

/-- The source's counting loop agrees with List.countP. -/
lemma count_foldl (pred : Point → Bool) (l : List Point) :
    ∀ n : ℕ, l.foldl (fun inside p => if pred p then inside + 1 else inside) n
      = n + l.countP pred := by
  induction l with
  | nil => intro n; simp
  | cons p l ih =>
      intro n
      by_cases hp : pred p = true <;>
        simp [List.countP_cons, hp, ih] <;> omega

/-- The coverage fraction is the inside count over the total count. -/
lemma fractionInsideEllipse_eq_countP (kps : List Point) (cx cy rx ry : ℚ) :
    fractionInsideEllipse kps cx cy rx ry =
      ((kps.countP fun p => isInsideEllipse p.x p.y cx cy rx ry : ℕ) : ℚ)
        / (kps.length : ℚ) := by
  unfold fractionInsideEllipse
  rw [count_foldl]
  simp

/-- The scenario-5 face: 24 keypoints at the region center and one far
outside, so the coverage fraction is 24/25 = 0.96 while the bounding
box pokes out of the ellipse. -/
def faceC8 : FaceInput := ⟨List.replicate 24 ⟨5, 4⟩ ++ [⟨100, 100⟩], none, 3/5⟩

/-- The default configuration with the bounding-box requirement off. -/
def cfgNoBox : Config := ⟨6, 3, false, 95/100, 8/100, 18/100⟩

set_option maxRecDepth 10000 in
/-- C8.  geometryOk computed by the source equals the specification's
formula boundingBoxInside AND fractionInside ≥ percentInsideRequired
AND confidenceOk (with each conjunct as the spec defines it); and in
the scenario with boxInsideRequired off, a bounding box partly outside
the ellipse and fraction 24/25 ≥ 95/100 with absent confidence,
geometryOk is true. -/
theorem geometryOk_characterization :
    (∀ (cfg : Config) (r : Region) (face : FaceInput),
      geometryOkOf cfg r face = geometryOkSpec cfg r face) ∧
    isBoundingBoxInsideEllipse faceC8.keypoints r0.cx r0.cy r0.rx r0.ry = false ∧
    fractionInsideEllipse faceC8.keypoints r0.cx r0.cy r0.rx r0.ry = 24/25 ∧
    geometryOkOf cfgNoBox r0 faceC8 = true := by
  refine ⟨?_, by decide, by decide, by decide⟩
  intro cfg r face
  unfold geometryOkOf geometryOkSpec isBoundingBoxInsideEllipse getBoundingBox isInsideEllipse
  rw [fractionInsideEllipse_eq_countP]
  unfold isInsideEllipse
  cases cfg.boxInsideRequired <;> simp

/-- Each change callback fires exactly when the newly computed value
(the post-frame last-emitted value) differs from the pre-frame one,
and carries the new value; the keypoints callback is invoked once per
frame with the observation's keypoints, or the null marker. -/
lemma detectStep_calls (cfg : Config) (r : Region) (input : Option FaceInput)
    (s : EngineState) :
    ((detectStep cfg r input s).2.distCalls.map some =
      (if (detectStep cfg r input s).1.lastDistanceStatus = s.lastDistanceStatus then []
       else [(detectStep cfg r input s).1.lastDistanceStatus])) ∧
    ((detectStep cfg r input s).2.goodCalls =
      (if (detectStep cfg r input s).1.lastGoodVisual = s.lastGoodVisual then []
       else [(detectStep cfg r input s).1.lastGoodVisual])) ∧
    ((detectStep cfg r input s).2.capCalls =
      (if (detectStep cfg r input s).1.lastCaptureAllowed = s.lastCaptureAllowed then []
       else [(detectStep cfg r input s).1.lastCaptureAllowed])) ∧
    (detectStep cfg r input s).2.kpCalls = [input.map FaceInput.keypoints] := by
  match input with
  | none =>
      simp only [detectStep, finishFrame]
      by_cases hd : s.lastDistanceStatus = some DistStatus.tooFar
      · by_cases hc : (false : Bool) = s.lastCaptureAllowed <;>
          by_cases hg : (false : Bool) = s.lastGoodVisual <;>
          simp_all
      · have hd' : ¬ some DistStatus.tooFar = s.lastDistanceStatus := fun hX => hd hX.symm
        by_cases hc : (false : Bool) = s.lastCaptureAllowed <;>
          by_cases hg : (false : Bool) = s.lastGoodVisual <;>
          simp_all
  | some face =>
      by_cases hok :
          classify cfg r face (calibAfter cfg r face s).baselineEyePx = DistStatus.ok
      · simp only [detectStep, hok, ne_eq, not_true_eq_false, if_false, ite_false,
          finishFrame, not_not]
        by_cases hd : some DistStatus.ok = s.lastDistanceStatus <;>
          by_cases hg : geometryOkOf cfg r face = s.lastGoodVisual <;>
          by_cases hcap :
            (if cfg.minFramesIn ≤ (if geometryOkOf cfg r face then s.goodStreak + 1 else 0)
             then true
             else if cfg.minFramesOut ≤
                 (if geometryOkOf cfg r face then 0 else s.badStreak + 1) then false
             else s.lastCaptureAllowed) = s.lastCaptureAllowed <;>
          simp_all
      · simp only [detectStep, finishFrame, if_pos hok]
        by_cases hd :
            some (classify cfg r face (calibAfter cfg r face s).baselineEyePx)
              = s.lastDistanceStatus <;>
          by_cases hc : (false : Bool) = s.lastCaptureAllowed <;>
          by_cases hg : (false : Bool) = s.lastGoodVisual <;>
          simp_all

/-- C9.  On every processed frame, each of the three change callbacks
(face-good, distance-status, capture-allowed) is invoked exactly when
the newly computed value differs from the last-emitted one — so two
consecutive frames computing the same distance status fire the
distance callback at most once — while the keypoints callback is
invoked on every frame, with the face's keypoint list or the null
absence marker. -/
theorem callbacks_edge_triggered (cfg : Config) (r : Region) (input : Option FaceInput)
    (s : EngineState) :
    ((detectStep cfg r input s).2.distCalls.map some =
      (if (detectStep cfg r input s).1.lastDistanceStatus = s.lastDistanceStatus then []
       else [(detectStep cfg r input s).1.lastDistanceStatus])) ∧
    ((detectStep cfg r input s).2.goodCalls =
      (if (detectStep cfg r input s).1.lastGoodVisual = s.lastGoodVisual then []
       else [(detectStep cfg r input s).1.lastGoodVisual])) ∧
    ((detectStep cfg r input s).2.capCalls =
      (if (detectStep cfg r input s).1.lastCaptureAllowed = s.lastCaptureAllowed then []
       else [(detectStep cfg r input s).1.lastCaptureAllowed])) ∧
    (detectStep cfg r input s).2.kpCalls = [input.map FaceInput.keypoints] :=
  detectStep_calls cfg r input s

/-- Every frame ends with some concrete distance status recorded. -/
lemma detectStep_lastDist_some (cfg : Config) (r : Region) (input : Option FaceInput)
    (s : EngineState) :
    ∃ d, (detectStep cfg r input s).1.lastDistanceStatus = some d := by
  match input with
  | none =>
      rw [detectStep_none]
      exact ⟨.tooFar, rfl⟩
  | some face =>
      by_cases hok : faceDistStatus cfg r s face = .ok
      · rw [detectStep_face_ok cfg r face s hok]
        exact ⟨.ok, rfl⟩
      · rw [detectStep_face_notOk cfg r face s hok]
        exact ⟨faceDistStatus cfg r s face, rfl⟩

/-- C10.  The last-emitted distance status starts at the null
sentinel, so the first processed frame always fires the distance
callback with whatever status it computes; the last-emitted face-good
and capture-allowed values start at false, so from any state still at
false those callbacks can only fire carrying true — no face-good or
capture-allowed callback fires before the signal first computes to
true. -/
theorem initial_emission :
    initState.lastDistanceStatus = none ∧
    initState.lastGoodVisual = false ∧
    initState.lastCaptureAllowed = false ∧
    (∀ (cfg : Config) (r : Region) (input : Option FaceInput),
      ∃ d, (detectStep cfg r input initState).2.distCalls = [d] ∧
        (detectStep cfg r input initState).1.lastDistanceStatus = some d) ∧
    (∀ (cfg : Config) (r : Region) (input : Option FaceInput) (s : EngineState),
      s.lastGoodVisual = false →
        (detectStep cfg r input s).2.goodCalls = [] ∨
        (detectStep cfg r input s).2.goodCalls = [true]) ∧
    (∀ (cfg : Config) (r : Region) (input : Option FaceInput) (s : EngineState),
      s.lastCaptureAllowed = false →
        (detectStep cfg r input s).2.capCalls = [] ∨
        (detectStep cfg r input s).2.capCalls = [true]) := by
  refine ⟨rfl, rfl, rfl, ?_, ?_, ?_⟩
  · intro cfg r input
    obtain ⟨d, hd⟩ := detectStep_lastDist_some cfg r input initState
    have h1 := (detectStep_calls cfg r input initState).1
    rw [hd, if_neg (by simp [initState])] at h1
    refine ⟨d, ?_, hd⟩
    cases hc : (detectStep cfg r input initState).2.distCalls with
    | nil => rw [hc] at h1; simp at h1
    | cons a t =>
        rw [hc] at h1
        simp at h1
        rw [h1.1, h1.2]
  · intro cfg r input s h
    have h2 := (detectStep_calls cfg r input s).2.1
    rw [h] at h2
    cases hB : (detectStep cfg r input s).1.lastGoodVisual <;> rw [hB] at h2
    · left
      rw [h2, if_pos rfl]
    · right
      rw [h2, if_neg (by simp)]
  · intro cfg r input s h
    have h2 := (detectStep_calls cfg r input s).2.2.1
    rw [h] at h2
    cases hB : (detectStep cfg r input s).1.lastCaptureAllowed <;> rw [hB] at h2
    · left
      rw [h2, if_pos rfl]
    · right
      rw [h2, if_neg (by simp)]

/-- Witness for C10: on the very first frame (a no-face frame under
the default configuration), the distance callback fires, and from the
initial false values the face-good callback does not fire with
false. -/
theorem initial_emission_witness :
    (∃ d, (detectStep defaultCfg r0 none initState).2.distCalls = [d] ∧
      (detectStep defaultCfg r0 none initState).1.lastDistanceStatus = some d) ∧
    ((detectStep defaultCfg r0 none initState).2.goodCalls = [] ∨
      (detectStep defaultCfg r0 none initState).2.goodCalls = [true]) :=
  ⟨initial_emission.2.2.2.1 defaultCfg r0 none,
   initial_emission.2.2.2.2.1 defaultCfg r0 none initState rfl⟩

/-- Counterexample to C1 as stated.  Under the default configuration
(minFramesOut = 3), after six geometry-OK distance-ok frames the
capture signal is true; the next frame has no face, and the signal
transitions to false on it even though the updated badStreak is 1,
which has not reached minFramesOut — the signal does change on a
no-face frame, against the claim's "never changes its value on any
other frame (including no-face frames)". -/
theorem captureAllowed_forced_false_counterexample :
    (runFrames defaultCfg r0 (List.replicate 6 (some goodFace)) initState).lastCaptureAllowed
      = true ∧
    (detectStep defaultCfg r0 none
        (runFrames defaultCfg r0 (List.replicate 6 (some goodFace))
          initState)).1.lastCaptureAllowed = false ∧
    (detectStep defaultCfg r0 none
        (runFrames defaultCfg r0 (List.replicate 6 (some goodFace))
          initState)).1.badStreak = 1 ∧
    defaultCfg.minFramesOut = 3 := by
  refine ⟨by decide, by decide, by decide, rfl⟩

/-- C1 amended.  For a configuration with minFramesIn ≥ 1 and a state
where a disallowed capture signal comes with goodStreak < minFramesIn
(true of the initial state and preserved by every frame, as the third
conjunct shows): the capture signal transitions to true only on a face
frame with distance status ok whose updated goodStreak just reached
minFramesIn; it transitions to false only on a no-face frame, on a
face frame whose distance status is not ok (both force it false), or
on a distance-ok frame whose updated badStreak has reached
minFramesOut; it never changes on any other frame. -/
theorem captureAllowed_transitions_amended (cfg : Config) (r : Region)
    (input : Option FaceInput) (s : EngineState) (hIn : 1 ≤ cfg.minFramesIn)
    (hInv : s.lastCaptureAllowed = false → s.goodStreak < cfg.minFramesIn) :
    ((s.lastCaptureAllowed = false ∧
        (detectStep cfg r input s).1.lastCaptureAllowed = true) →
      ∃ face, input = some face ∧ faceDistStatus cfg r s face = .ok ∧
        (detectStep cfg r input s).1.goodStreak = cfg.minFramesIn) ∧
    ((s.lastCaptureAllowed = true ∧
        (detectStep cfg r input s).1.lastCaptureAllowed = false) →
      input = none ∨ ∃ face, input = some face ∧
        (faceDistStatus cfg r s face ≠ .ok ∨
          cfg.minFramesOut ≤ (detectStep cfg r input s).1.badStreak)) ∧
    ((detectStep cfg r input s).1.lastCaptureAllowed = false →
      (detectStep cfg r input s).1.goodStreak < cfg.minFramesIn) := by
  match input with
  | none =>
      rw [detectStep_none]
      refine ⟨?_, ?_, ?_⟩
      · rintro ⟨-, hup⟩
        exact absurd hup (by simp)
      · intro _
        exact Or.inl rfl
      · intro _
        show (0 : ℕ) < cfg.minFramesIn
        omega
  | some face =>
      by_cases hok : faceDistStatus cfg r s face = .ok
      · rw [detectStep_face_ok cfg r face s hok]
        refine ⟨?_, ?_, ?_⟩
        · rintro ⟨hc0, hc1⟩
          have hlt : s.goodStreak < cfg.minFramesIn := hInv hc0
          refine ⟨face, rfl, hok, ?_⟩
          by_cases hx :
              cfg.minFramesIn ≤ (if geometryOkOf cfg r face then s.goodStreak + 1 else 0)
          · by_cases hg : geometryOkOf cfg r face = true <;> simp [hg] at hx ⊢ <;> omega
          · rw [if_neg hx] at hc1
            by_cases hy :
                cfg.minFramesOut ≤ (if geometryOkOf cfg r face then 0 else s.badStreak + 1)
            · rw [if_pos hy] at hc1
              exact absurd hc1 (by simp)
            · rw [if_neg hy] at hc1
              exact absurd (hc1 ▸ hc0) (by simp)
        · rintro ⟨hc0, hc1⟩
          refine Or.inr ⟨face, rfl, ?_⟩
          by_cases hx :
              cfg.minFramesIn ≤ (if geometryOkOf cfg r face then s.goodStreak + 1 else 0)
          · rw [if_pos hx] at hc1
            exact absurd hc1 (by simp)
          · rw [if_neg hx] at hc1
            by_cases hy :
                cfg.minFramesOut ≤ (if geometryOkOf cfg r face then 0 else s.badStreak + 1)
            · exact Or.inr hy
            · rw [if_neg hy] at hc1
              exact absurd (hc1 ▸ hc0) (by simp)
        · intro hc
          by_cases hx :
              cfg.minFramesIn ≤ (if geometryOkOf cfg r face then s.goodStreak + 1 else 0)
          · rw [if_pos hx] at hc
            exact absurd hc (by simp)
          · exact Nat.not_le.mp hx
      · rw [detectStep_face_notOk cfg r face s hok]
        refine ⟨?_, ?_, ?_⟩
        · rintro ⟨-, hup⟩
          exact absurd hup (by simp)
        · intro _
          exact Or.inr ⟨face, rfl, Or.inl hok⟩
        · intro _
          show (0 : ℕ) < cfg.minFramesIn
          omega

/-- Witness for the amended C1: under the default configuration, from
goodStreak = 5 with capture disallowed, a geometry-OK distance-ok
frame makes the capture signal transition to true, and the theorem
locates that transition at goodStreak = minFramesIn = 6. -/
theorem captureAllowed_transitions_amended_witness :
    ∃ face, (some goodFace : Option FaceInput) = some face ∧
      faceDistStatus defaultCfg r0 ⟨false, none, false, 5, 0, none, 0, 0⟩ face = .ok ∧
      (detectStep defaultCfg r0 (some goodFace)
        ⟨false, none, false, 5, 0, none, 0, 0⟩).1.goodStreak = defaultCfg.minFramesIn :=
  (captureAllowed_transitions_amended defaultCfg r0 (some goodFace)
      ⟨false, none, false, 5, 0, none, 0, 0⟩ (by decide) (fun _ => by decide)).1
    ⟨rfl, by decide⟩

end FaceFrame
